import Mathlib

/-!
Verification development for the `pathfinding-py` repository.

Part 1 models the 2D pathfinding entry point `find_path_2d`.  The engine
itself is a native extension whose sources are not in the Python tree; it is
modelled from the specification (§4 of the design document): a cost field over
a dense uint8 grid, 8-connected topology, edge weight `max 1 (cost dest)`,
Chebyshev heuristic, a min-`f` open set with stale-entry discarding, and
parent-link path reconstruction.

Part 2 embeds `assets/generate_moving_images.py` over the reals: the
per-frame inverse sampling map (rotation, translation, sinusoidal ripple),
the `scipy.ndimage.map_coordinates` call contract, and the final
`astype` conversion of every pixel to unsigned 8 bits.
-/

/-- A per-node search record: best-known cost from start, predecessor link,
and whether the node has been finalized (closed). Modelled from the spec:
the SearchRecord of §3 (the Unseen state is represented by absence from the
record table). -/
structure SRec where
  g : Nat
  par : Option (Nat × Nat)
  closed : Bool

/-- An open-set entry `(f, h, insertion index, coordinate)`. Modelled from the
spec: §4.4, a frontier keyed by `f = g + h`, ties broken by lower `h`, then
by insertion order. -/
structure OEntry where
  f : Nat
  hv : Nat
  idx : Nat
  c : Nat × Nat
deriving DecidableEq

/-- Look up the record of a coordinate in the dense per-search table,
represented here as an association list; `none` encodes the Unseen state. -/
def findRec : List ((Nat × Nat) × SRec) → (Nat × Nat) → Option SRec
  | [], _ => none
  | (c', r) :: rest, c => if c' = c then some r else findRec rest c

/-- Store (or overwrite) the record of a coordinate. -/
def setRec : List ((Nat × Nat) × SRec) → (Nat × Nat) → SRec → List ((Nat × Nat) × SRec)
  | [], c, r => [(c, r)]
  | (c', r') :: rest, c, r =>
    if c' = c then (c, r) :: rest else (c', r') :: setRec rest c r

/-- Chebyshev distance on the grid, the 2D heuristic of §4.3 with
`c_min = 1`. -/
def chebyshev (a b : Nat × Nat) : Nat :=
  max (max a.1 b.1 - min a.1 b.1) (max a.2 b.2 - min a.2 b.2)

/-- The eight king-move offsets of the Grid2D topology (§4.2):
`dx, dy ∈ \x7b-1, 0, +1\x7d` without `(0, 0)`. -/
def offsets8 : List (Int × Int) :=
  [(-1, -1), (-1, 0), (-1, 1), (0, -1), (0, 1), (1, -1), (1, 0), (1, 1)]

/-- In-bounds 8-neighbourhood of a cell of a `w × h` grid. -/
def neighbors2d (w h : Nat) (c : Nat × Nat) : List (Nat × Nat) :=
  offsets8.filterMap (fun d =>
    let nx : Int := (c.1 : Int) + d.1
    let ny : Int := (c.2 : Int) + d.2
    if 0 ≤ nx ∧ nx < (w : Int) ∧ 0 ≤ ny ∧ ny < (h : Int) then
      some (nx.toNat, ny.toNat)
    else none)

/-- Strictly-less comparison on open entries: lower `f` first, then lower `h`,
then earlier insertion. -/
def entryLt (a b : OEntry) : Prop :=
  a.f < b.f ∨ (a.f = b.f ∧ (a.hv < b.hv ∨ (a.hv = b.hv ∧ a.idx < b.idx)))

instance (a b : OEntry) : Decidable (entryLt a b) := by
  unfold entryLt; infer_instance

/-- The minimal entry of a frontier under `entryLt`. -/
def minEntry : List OEntry → Option OEntry
  | [] => none
  | e :: rest =>
    match minEntry rest with
    | none => some e
    | some m => if entryLt m e then some m else some e

/-- Remove the first occurrence of an entry from the frontier. -/
def removeEntry : List OEntry → OEntry → List OEntry
  | [], _ => []
  | e' :: rest, e => if e' = e then rest else e' :: removeEntry rest e

/-- Pop the minimal entry off the frontier. -/
def popMin (frontier : List OEntry) : Option (OEntry × List OEntry) :=
  match minEntry frontier with
  | none => none
  | some m => some (m, removeEntry frontier m)

/-- Walk parent links back from the goal, accumulating the path in
start-to-goal order (§4.7); `none` if a link is missing or a cycle exhausts
the fuel. -/
def walkParents (recs : List ((Nat × Nat) × SRec)) :
    Nat → (Nat × Nat) → List (Nat × Nat) → Option (List (Nat × Nat))
  | 0, _, _ => none
  | fuel + 1, c, acc =>
    match findRec recs c with
    | none => none
    | some r =>
      match r.par with
      | none => some (c :: acc)
      | some p => walkParents recs fuel p (c :: acc)

/-- Relax one successor `v` of the just-closed node `u` (§4.6 step 2c):
`g' = g(u) + max 1 (cost v)`; on improvement update the record (reopening a
closed node if needed) and push a fresh frontier entry. Returns the updated
`(frontier, records, insertion counter)`. -/
def relax (cost : Nat × Nat → Nat) (hfun : Nat × Nat → Nat) (u : Nat × Nat) (gu : Nat)
    (st : List OEntry × List ((Nat × Nat) × SRec) × Nat) (v : Nat × Nat) :
    List OEntry × List ((Nat × Nat) × SRec) × Nat :=
  let (frontier, recs, ctr) := st
  let g' := gu + max 1 (cost v)
  let improves :=
    match findRec recs v with
    | none => true
    | some rv => decide (g' < rv.g)
  if improves then
    (frontier ++ [⟨g' + hfun v, hfun v, ctr, v⟩],
     setRec recs v ⟨g', some u, false⟩, ctr + 1)
  else (frontier, recs, ctr)

/-- The best-first search loop shared by A* and Dijkstra (§4.6): pop the
min-`f` entry, discard it if stale or already closed, stop at the goal,
otherwise close the node and relax its 8-neighbourhood. Fuel-indexed; the
spec bounds the number of steps by the number of reachable nodes, so any
fuel at least `16·w·h + 16` is enough. -/
def searchLoop (w h : Nat) (cost : Nat × Nat → Nat) (hfun : Nat × Nat → Nat)
    (goal : Nat × Nat) :
    Nat → List OEntry → List ((Nat × Nat) × SRec) → Nat →
    Option (List (Nat × Nat) × Nat)
  | 0, _, _, _ => none
  | fuel + 1, frontier, recs, ctr =>
    match popMin frontier with
    | none => none
    | some (e, rest) =>
      match findRec recs e.c with
      | none => searchLoop w h cost hfun goal fuel rest recs ctr
      | some r =>
        if r.closed ∨ e.f ≠ r.g + hfun e.c then
          searchLoop w h cost hfun goal fuel rest recs ctr
        else if e.c = goal then
          match walkParents recs (w * h + 1) goal [] with
          | none => none
          | some path => some (path, r.g)
        else
          let recs' := setRec recs e.c ⟨r.g, r.par, true⟩
          let st := (neighbors2d w h e.c).foldl (relax cost hfun e.c r.g) (rest, recs', ctr)
          searchLoop w h cost hfun goal fuel st.1 st.2.1 st.2.2

/-- Run one strategy from `start` with heuristic `hfun` (identically zero for
Dijkstra, Chebyshev for A*): `g(start) = 0`, push start, loop. -/
def runSearch (w h : Nat) (cost : Nat × Nat → Nat) (hfun : Nat × Nat → Nat)
    (start goal : Nat × Nat) : Option (List (Nat × Nat) × Nat) :=
  searchLoop w h cost hfun goal (16 * w * h + 16)
    [⟨hfun start, hfun start, 0, start⟩] [(start, ⟨0, none, false⟩)] 1

/-- Modelled from the spec: the programmatic entry point `find_path_2d` of §6
with the dispatch rules of §4.8 — the engine's native sources are not in the
repository tree, only its tests. The algorithm string must be one of
`astar`, `dijkstra`, `fringe`; endpoints must be in bounds; `astar` runs the
best-first loop with the Chebyshev heuristic and `dijkstra` with the zero
heuristic. The Fringe strategy is not needed by any claim and is not
modelled; requesting it yields a distinguished error. `none` means
unreachable. -/
def find_path_2d (w h : Nat) (cost : Nat × Nat → Nat) (start goal : Nat × Nat)
    (algorithm : String) : Except String (Option (List (Nat × Nat) × Nat)) :=
  if algorithm ≠ "astar" ∧ algorithm ≠ "dijkstra" ∧ algorithm ≠ "fringe" then
    Except.error "UnknownAlgorithm"
  else if ¬ (start.1 < w ∧ start.2 < h ∧ goal.1 < w ∧ goal.2 < h) then
    Except.error "OutOfBounds"
  else if algorithm = "astar" then
    Except.ok (runSearch w h cost (fun c => chebyshev c goal * 1) start goal)
  else if algorithm = "dijkstra" then
    Except.ok (runSearch w h cost (fun _ => 0) start goal)
  else
    Except.error "FringeNotModelled"

/-- The 10×10 test grid of S1: every cell 200 except the main diagonal,
which is 10. -/
def diagGrid : Nat × Nat → Nat := fun c => if c.1 = c.2 then 10 else 200

/-- The expected diagonal path of S1. -/
def diagPath : List (Nat × Nat) :=
  [(0, 0), (1, 1), (2, 2), (3, 3), (4, 4), (5, 5), (6, 6), (7, 7), (8, 8), (9, 9)]

/-! ## Part 2: `assets/generate_moving_images.py` -/

/-- Python `f"frame_\x7bt:03d\x7d.png"` index part: decimal digits of `t`,
zero-padded on the left to width 3. -/
def pad3 (t : Nat) : String :=
  let s := toString t
  if s.length < 3 then String.mk (List.replicate (3 - s.length) '0') ++ s else s

/-- The file name the frame loop writes for frame index `t`. -/
def frameFilename (t : Nat) : String := "frame_" ++ pad3 t ++ ".png"

/-- The file names written by the loop `for t in range(num_frames)`. -/
def frameFilenames (numFrames : Nat) : List String :=
  (List.range numFrames).map frameFilename

/-- The `num_frames` default; the CLI entry point calls `generate_frames`
without overriding it. -/
def defaultNumFrames : Nat := 120

/-- Control flow of `generate_frames` around `Image.open`: `openResult` is
the outcome of opening and grayscale-converting the input image. The source
wraps the open in `try/except`, prints the error, and returns normally
having written no frames; on success the loop writes one file per
`t in range(num_frames)`. The result is the outcome visible to the caller:
a propagated exception would be `Except.error`; a normal return carries the
list of file names written. -/
def generateFramesRun (openResult : Except String Unit) (numFrames : Nat) :
    Except String (List String) :=
  match openResult with
  | Except.error _ => Except.ok []
  | Except.ok _ => Except.ok (frameFilenames numFrames)

noncomputable section

/-- `np.deg2rad`. -/
def deg2rad (d : ℝ) : ℝ := d * Real.pi / 180

/-- `trans_offset_x = 0.5 * t`: 0.5 pixel per frame to the right. -/
def transOffsetX (t : Nat) : ℝ := 0.5 * t

/-- `angle_deg = 0.5 * t`: 0.5 degree per frame. -/
def angleDeg (t : Nat) : ℝ := 0.5 * t

/-- `angle_rad = np.deg2rad(angle_deg)`. -/
def angleRad (t : Nat) : ℝ := deg2rad (angleDeg t)

/-- `freq = 0.05`. -/
def rippleFreq : ℝ := 0.05

/-- `phase = 0.2 * t`. -/
def ripplePhase (t : Nat) : ℝ := 0.2 * t

/-- `deform_amp = 2.0 * np.sin(t * 0.05)`. -/
def deformAmp (t : Nat) : ℝ := 2.0 * Real.sin (t * 0.05)

/-- `coords_x = x - cx` with `cx = w / 2.0`. -/
def coordsX (w : Nat) (x : ℝ) : ℝ := x - w / 2.0

/-- `coords_y = y - cy` with `cy = h / 2.0`. -/
def coordsY (h : Nat) (y : ℝ) : ℝ := y - h / 2.0

/-- `rot_x = coords_x * cos_a + coords_y * sin_a`. -/
def rotX (t h w : Nat) (x y : ℝ) : ℝ :=
  coordsX w x * Real.cos (angleRad t) + coordsY h y * Real.sin (angleRad t)

/-- `rot_y = -coords_x * sin_a + coords_y * cos_a`. -/
def rotY (t h w : Nat) (x y : ℝ) : ℝ :=
  -coordsX w x * Real.sin (angleRad t) + coordsY h y * Real.cos (angleRad t)

/-- `src_x = rot_x + cx` (centre restored). -/
def srcX0 (t h w : Nat) (x y : ℝ) : ℝ := rotX t h w x y + w / 2.0

/-- `src_y = rot_y + cy` (centre restored). -/
def srcY0 (t h w : Nat) (x y : ℝ) : ℝ := rotY t h w x y + h / 2.0

/-- `src_x = src_x - trans_offset_x` (inverse translation). -/
def srcX1 (t h w : Nat) (x y : ℝ) : ℝ := srcX0 t h w x y - transOffsetX t

/-- `src_x = src_x + deform_amp * np.sin(src_y * freq + phase)`:
the x ripple, driven by the not-yet-displaced `src_y`. -/
def srcX2 (t h w : Nat) (x y : ℝ) : ℝ :=
  srcX1 t h w x y + deformAmp t * Real.sin (srcY0 t h w x y * rippleFreq + ripplePhase t)

/-- `src_y = src_y + deform_amp * np.cos(src_x * freq + phase)`:
the y ripple, driven by the already x-displaced `src_x`. -/
def srcY2 (t h w : Nat) (x y : ℝ) : ℝ :=
  srcY0 t h w x y + deformAmp t * Real.cos (srcX2 t h w x y * rippleFreq + ripplePhase t)

/-- The keyword arguments of the `ndimage.map_coordinates` call:
`order=3, mode='constant', cval=255.0`. -/
structure MapCoordinatesCall where
  order : Nat
  mode : String
  cval : ℝ

/-- The spline order, boundary mode and fill value `generate_frames` passes
to `ndimage.map_coordinates`. -/
def generateFramesMapCall : MapCoordinatesCall :=
  { order := 3, mode := "constant", cval := 255.0 }

/-- `scipy.ndimage.map_coordinates` with `mode='constant'` on an `h × w`
input: a sample whose source coordinate falls outside the input extent
yields `cval`; an in-range sample is produced by the spline interpolation
scheme `interp` (of the requested order), kept abstract here. -/
def mapCoordinatesConst (interp : (Nat → Nat → Nat) → ℝ → ℝ → ℝ)
    (img : Nat → Nat → Nat) (h w : Nat) (sy sx : ℝ) (cval : ℝ) : ℝ :=
  if sy < 0 ∨ ((h : ℝ) - 1) < sy ∨ sx < 0 ∨ ((w : ℝ) - 1) < sx then cval
  else interp img sy sx

/-- The interpolated (pre-`astype`) value of pixel `(row i, column j)` of
frame `t`: `map_coordinates(img_arr, [src_y, src_x], order=3,
mode='constant', cval=255.0)`, the grid being built with `y = i`, `x = j`. -/
def frameValR (interp : (Nat → Nat → Nat) → ℝ → ℝ → ℝ)
    (img : Nat → Nat → Nat) (h w : Nat) (t i j : Nat) : ℝ :=
  mapCoordinatesConst interp img h w
    (srcY2 t h w (j : ℝ) (i : ℝ)) (srcX2 t h w (j : ℝ) (i : ℝ))
    generateFramesMapCall.cval

/-- C-style float-to-integer conversion: truncation toward zero. -/
def truncToInt (v : ℝ) : ℤ := if v < 0 then ⌈v⌉ else ⌊v⌋

/-- `astype('uint8')` on a float value: truncate toward zero, then reduce
modulo 256 (numpy wraps out-of-range values; it does not saturate). -/
def astypeUint8 (v : ℝ) : ℤ := truncToInt v % 256

/-- The saturating conversion `astype` does NOT perform: truncate, then
clamp into `[0, 255]`. -/
def satUint8 (v : ℝ) : ℤ := max 0 (min 255 (truncToInt v))

/-- The stored intensity of pixel `(i, j)` of the written frame `t`:
`new_img.astype('uint8')` applied to the interpolated value. -/
def frameVal (interp : (Nat → Nat → Nat) → ℝ → ℝ → ℝ)
    (img : Nat → Nat → Nat) (h w : Nat) (t i j : Nat) : ℤ :=
  astypeUint8 (frameValR interp img h w t i j)

/-- The sampling coordinate of target pixel `(row i, column j)` of frame `t`
falls outside the `h × w` source extent (the `mapCoordinatesConst` fill
condition). -/
def outOfSource (t h w i j : Nat) : Prop :=
  srcY2 t h w (j : ℝ) (i : ℝ) < 0 ∨ ((h : ℝ) - 1) < srcY2 t h w (j : ℝ) (i : ℝ) ∨
  srcX2 t h w (j : ℝ) (i : ℝ) < 0 ∨ ((w : ℝ) - 1) < srcX2 t h w (j : ℝ) (i : ℝ)

end

/-! ## Theorems -/

/-- C1: for the 10×10 uint8 grid whose cells are all 200 except the
diagonal cells `array[i, i] = 10`, `find_path_2d(array, (0,0), (9,9),
"astar")` returns the 10-point diagonal path with cost `9 · 10 = 90`. -/
theorem C1_find_path_2d_astar_diagonal :
    find_path_2d 10 10 diagGrid (0, 0) (9, 9) "astar" =
      Except.ok (some (diagPath, 90)) := by
  rfl

/-- C2: for every frame index `t`, the pre-translation, pre-ripple sampling
map is the inverse of the counter-clockwise rotation by `0.5·t` degrees
about the image centre: rotating the sampled source offset
`(rot_x, rot_y)` counter-clockwise by `angle_rad` returns the target
pixel's centred offset, and `angle_rad` is `0.5·t` degrees in radians. -/
theorem C2_rotation_inverse (t h w : Nat) (x y : ℝ) :
    Real.cos (angleRad t) * rotX t h w x y - Real.sin (angleRad t) * rotY t h w x y
        = coordsX w x ∧
    Real.sin (angleRad t) * rotX t h w x y + Real.cos (angleRad t) * rotY t h w x y
        = coordsY h y ∧
    angleRad t = 0.5 * t * Real.pi / 180 := by
  refine ⟨?_, ?_, rfl⟩
  · unfold rotX rotY
    linear_combination coordsX w x * Real.sin_sq_add_cos_sq (angleRad t)
  · unfold rotX rotY
    linear_combination coordsY h y * Real.sin_sq_add_cos_sq (angleRad t)

/-- C3: for every frame index `t`, the x sampling coordinate is reduced by
`0.5·t` pixels, after the inverse rotation (`srcX0`) and before the ripple
(`srcX2`): content translates right by 0.5 px per frame. -/
theorem C3_translation (t h w : Nat) (x y : ℝ) :
    srcX1 t h w x y = srcX0 t h w x y - 0.5 * t := by
  unfold srcX1 transOffsetX
  rfl

/-- C4: the sinusoidal ripple added to the sampling coordinates has spatial
frequency `0.05`, phase `0.2·t` and amplitude `2·sin(0.05·t)` on both axes. -/
theorem C4_ripple_parameters (t h w : Nat) (x y : ℝ) :
    srcX2 t h w x y
        = srcX1 t h w x y
          + 2 * Real.sin (0.05 * t) * Real.sin (0.05 * srcY0 t h w x y + 0.2 * t) ∧
    srcY2 t h w x y
        = srcY0 t h w x y
          + 2 * Real.sin (0.05 * t) * Real.cos (0.05 * srcX2 t h w x y + 0.2 * t) := by
  constructor
  · unfold srcX2 deformAmp rippleFreq ripplePhase
    ring_nf
  · unfold srcY2 deformAmp rippleFreq ripplePhase
    ring_nf

/-- C9: the two axis ripples compose sequentially — the y displacement is a
function of the already x-displaced coordinate: expanding the x ripple
inside the y ripple's argument gives exactly the stored `srcY2`. -/
theorem C9_sequential_ripple (t h w : Nat) (x y : ℝ) :
    srcY2 t h w x y
      = srcY0 t h w x y + deformAmp t *
          Real.cos (rippleFreq *
            (srcX1 t h w x y + deformAmp t *
              Real.sin (rippleFreq * srcY0 t h w x y + ripplePhase t))
            + ripplePhase t) := by
  unfold srcY2 srcX2
  ring_nf

/-- At frame index 0 the rotation angle is zero. -/
lemma angleRad_at_zero : angleRad 0 = 0 := by
  unfold angleRad angleDeg deg2rad
  norm_num

/-- At frame index 0 the ripple amplitude `2·sin(0.05·t)` is zero. -/
lemma deformAmp_at_zero : deformAmp 0 = 0 := by
  unfold deformAmp
  norm_num

/-- At frame index 0 the x sampling coordinate is the target x coordinate. -/
lemma srcX2_at_zero (h w : Nat) (x y : ℝ) : srcX2 0 h w x y = x := by
  unfold srcX2 srcX1 srcX0 rotX
  rw [angleRad_at_zero, deformAmp_at_zero]
  unfold transOffsetX coordsX coordsY
  norm_num

/-- At frame index 0 the y sampling coordinate is the target y coordinate. -/
lemma srcY2_at_zero (h w : Nat) (x y : ℝ) : srcY2 0 h w x y = y := by
  unfold srcY2 srcY0 rotY
  rw [angleRad_at_zero, deformAmp_at_zero]
  unfold coordsX coordsY
  norm_num

/-- C5: `generate_frames` resamples with spline order 3 (cubic) in mode
`constant`, and any sample whose source coordinate falls outside the source
extent is filled with the fill value 255 (white). -/
theorem C5_cubic_order_and_white_fill
    (interp : (Nat → Nat → Nat) → ℝ → ℝ → ℝ) (img : Nat → Nat → Nat)
    (h w t i j : Nat) (hout : outOfSource t h w i j) :
    generateFramesMapCall.order = 3 ∧
    generateFramesMapCall.mode = "constant" ∧
    frameValR interp img h w t i j = 255 := by
  refine ⟨rfl, rfl, ?_⟩
  unfold outOfSource at hout
  unfold frameValR mapCoordinatesConst
  rw [if_pos hout]
  norm_num [generateFramesMapCall]

/-- C5 witness: on a 1×1 source, target pixel `(0, 5)` of frame 0 samples
source x-coordinate 5, which is out of the source extent, and is filled
with 255. -/
theorem C5_cubic_order_and_white_fill_witness :
    outOfSource 0 1 1 0 5 ∧
    (generateFramesMapCall.order = 3 ∧
     generateFramesMapCall.mode = "constant" ∧
     frameValR (fun _ _ _ => 0) (fun _ _ => 0) 1 1 0 0 5 = 255) := by
  have hout : outOfSource 0 1 1 0 5 := by
    unfold outOfSource
    refine Or.inr (Or.inr (Or.inr ?_))
    rw [srcX2_at_zero]
    norm_num
  exact ⟨hout, C5_cubic_order_and_white_fill (fun _ _ _ => 0) (fun _ _ => 0) 1 1 0 0 5 hout⟩

/-- C6: on a successfully opened image the generator writes one file per
frame index `t < num_frames`, named `frame_` + the index zero-padded to
three digits + `.png`; in particular the first file is `frame_000.png`. -/
theorem C6_frame_files (n t : Nat) (ht : t < n) :
    generateFramesRun (Except.ok ()) n = Except.ok (frameFilenames n) ∧
    (frameFilenames n).length = n ∧
    (frameFilenames n)[t]? = some ("frame_" ++ pad3 t ++ ".png") ∧
    frameFilename 0 = "frame_000.png" := by
  refine ⟨rfl, by simp [frameFilenames], ?_, by decide⟩
  simp [frameFilenames, frameFilename, ht]

/-- C6 witness at the CLI default `num_frames = 120`, frame index 7. -/
theorem C6_frame_files_witness :
    (7 : Nat) < 120 ∧
    (generateFramesRun (Except.ok ()) 120 = Except.ok (frameFilenames 120) ∧
     (frameFilenames 120).length = 120 ∧
     (frameFilenames 120)[7]? = some ("frame_" ++ pad3 7 ++ ".png") ∧
     frameFilename 0 = "frame_000.png") :=
  ⟨by decide, C6_frame_files 120 7 (by decide)⟩

/-- C7 counterexample: when opening the input image fails, `generate_frames`
returns normally with no frames written — the failure is caught, printed and
discarded, not surfaced to the caller. -/
theorem C7_counterexample_open_error_swallowed :
    generateFramesRun (Except.error "cannot open image") defaultNumFrames
        = Except.ok [] ∧
    generateFramesRun (Except.error "cannot open image") defaultNumFrames
        ≠ Except.error "cannot open image" :=
  ⟨rfl, fun hc => Except.noConfusion hc⟩

/-- C7 (amended): the image-open failure IS swallowed — for every error and
every frame count the run ends in a normal return carrying no written
frames, never in a propagated error. -/
theorem C7_open_error_swallowed (e : String) (n : Nat) :
    generateFramesRun (Except.error e) n = Except.ok [] := rfl

/-- C8: if the interpolation scheme reproduces the source values at integer
grid points and the source pixels are valid uint8 values, then frame 0 is
pixel-for-pixel identical to the input image: at `t = 0` the sampling map is
the identity, every sample is in range, and the uint8 conversion is the
identity on values below 256. -/
theorem C8_first_frame_identity
    (interp : (Nat → Nat → Nat) → ℝ → ℝ → ℝ) (img : Nat → Nat → Nat) (h w : Nat)
    (hinterp : ∀ a b : Nat, a < h → b < w → interp img (a : ℝ) (b : ℝ) = (img a b : ℝ))
    (himg : ∀ a b : Nat, a < h → b < w → img a b < 256)
    (i j : Nat) (hi : i < h) (hj : j < w) :
    frameVal interp img h w 0 i j = (img i j : ℤ) := by
  have hx : srcX2 0 h w (j : ℝ) (i : ℝ) = (j : ℝ) := srcX2_at_zero h w _ _
  have hy : srcY2 0 h w (j : ℝ) (i : ℝ) = (i : ℝ) := srcY2_at_zero h w _ _
  have hbi : (i : ℝ) ≤ (h : ℝ) - 1 := by
    have : (i : ℝ) + 1 ≤ (h : ℝ) := by exact_mod_cast Nat.succ_le_of_lt hi
    linarith
  have hbj : (j : ℝ) ≤ (w : ℝ) - 1 := by
    have : (j : ℝ) + 1 ≤ (w : ℝ) := by exact_mod_cast Nat.succ_le_of_lt hj
    linarith
  unfold frameVal frameValR mapCoordinatesConst
  rw [hx, hy, if_neg ?hin]
  case hin =>
    push_neg
    refine ⟨Nat.cast_nonneg i, hbi, Nat.cast_nonneg j, hbj⟩
  rw [hinterp i j hi hj]
  unfold astypeUint8 truncToInt
  rw [if_neg (by push_neg; exact Nat.cast_nonneg _), Int.floor_natCast]
  exact Int.emod_eq_of_lt (Int.natCast_nonneg _) (by exact_mod_cast himg i j hi hj)

/-- C8 witness: a 1×1 image of constant value 7 and an interpolation scheme
that is exact at grid points reproduce the pixel in frame 0. -/
theorem C8_first_frame_identity_witness :
    frameVal (fun _ _ _ => (7 : ℝ)) (fun _ _ => 7) 1 1 0 0 0 = ((7 : Nat) : ℤ) :=
  C8_first_frame_identity (fun _ _ _ => (7 : ℝ)) (fun _ _ => 7) 1 1
    (fun _ _ _ _ => by norm_num) (fun _ _ _ _ => by norm_num)
    0 0 (by norm_num) (by norm_num)

/-- C10 counterexample: an interpolated value of `-1/2` overshoots below 0,
yet the stored intensity is 0 — exactly the saturated value, not a wrap
toward the opposite extreme. -/
theorem C10_counterexample_small_overshoot :
    (-(1/2) : ℝ) < 0 ∧
    astypeUint8 (-(1/2)) = satUint8 (-(1/2)) ∧
    astypeUint8 (-(1/2)) = 0 := by
  have htr : truncToInt (-(1/2) : ℝ) = 0 := by
    unfold truncToInt
    rw [if_pos (by norm_num), Int.ceil_eq_iff]
    constructor <;> norm_num
  refine ⟨by norm_num, ?_, ?_⟩
  · unfold astypeUint8 satUint8
    rw [htr]
    decide
  · unfold astypeUint8
    rw [htr]
    decide

/-- C10 (amended): each stored pixel is the uint8 conversion of the
interpolated value, which truncates toward zero and reduces modulo 256
rather than clamping: `-1` stores 255 and `256` stores 0 (wrapping), while
an overshoot of magnitude below one unit (such as `-1/2`) truncates to the
boundary value, coinciding with saturation there. -/
theorem C10_astype_wraps_modulo :
    (∀ interp img h w t i j, frameVal interp img h w t i j
        = astypeUint8 (frameValR interp img h w t i j)) ∧
    (∀ v : ℝ, astypeUint8 v = truncToInt v % 256) ∧
    astypeUint8 (-1) = 255 ∧ satUint8 (-1) = 0 ∧
    astypeUint8 256 = 0 ∧ satUint8 256 = 255 := by
  have h1 : truncToInt (-1 : ℝ) = -1 := by
    unfold truncToInt
    rw [if_pos (by norm_num), Int.ceil_eq_iff]
    constructor <;> norm_num
  have h2 : truncToInt (256 : ℝ) = 256 := by
    unfold truncToInt
    rw [if_neg (by norm_num), show ((256 : ℝ)) = ((256 : ℤ) : ℝ) by norm_num,
      Int.floor_intCast]
  refine ⟨fun _ _ _ _ _ _ _ => rfl, fun _ => rfl, ?_, ?_, ?_, ?_⟩
  · unfold astypeUint8
    rw [h1]
    decide
  · unfold satUint8
    rw [h1]
    decide
  · unfold astypeUint8
    rw [h2]
    decide
  · unfold satUint8
    rw [h2]
    decide
